import Mathlib

/-!
Shallow embedding of the script `financial_agent.py`.

The script constructs two specialist agents (a web-search agent bound to a
DuckDuckGo tool and a financial agent bound to a YFinance tool), a
coordinator agent whose team is the two specialists, and then submits one
fixed query string to the coordinator, printing the answer in Markdown.
We embed the agent data model, the environment reads, the startup prints,
and the single query submission, and prove the structural properties of
the configuration.
-/

namespace FinanceAgent

/-- A process environment: maps a variable name to its value, when set. -/
abbrev Env := String → Option String

/-- Model backend wrapper, from `phi.model.groq`: the script passes
`Groq(id="llama-3.3-70b-versatile")` to every agent. -/
inductive ModelBackend : Type where
  | Groq : String → ModelBackend
deriving DecidableEq

/-- The backend identifier carried by a backend reference. -/
def ModelBackend.ident : ModelBackend → String
  | .Groq i => i

/-- The four sub-capability flags the script passes to `YFinanceTools`. -/
structure YFinanceTools where
  company_news : Bool
  stock_price : Bool
  analyst_recommendations : Bool
  stock_fundamentals : Bool
deriving DecidableEq

/-- A tool binding exposed to an agent: either the DuckDuckGo web-search
capability or the YFinance financial-data capability. -/
inductive Tool : Type where
  | DuckDuckGo : Tool
  | YFinance : YFinanceTools → Tool
deriving DecidableEq

/-- An agent as the script configures it: name, optional role, backend
reference, tool bindings, team (sub-agents), instruction list, and the
two output-mode flags. The team field makes this a nested inductive. -/
inductive Agent : Type where
  | mk : String → Option String → ModelBackend → List Tool → List Agent →
      List String → Bool → Bool → Agent

/-- The configured name of an agent. -/
def Agent.name : Agent → String
  | .mk n _ _ _ _ _ _ _ => n

/-- The configured role of an agent, when one was passed. -/
def Agent.role : Agent → Option String
  | .mk _ r _ _ _ _ _ _ => r

/-- The backend reference bound into an agent. -/
def Agent.model : Agent → ModelBackend
  | .mk _ _ m _ _ _ _ _ => m

/-- The tool bindings of an agent. -/
def Agent.tools : Agent → List Tool
  | .mk _ _ _ t _ _ _ _ => t

/-- The team (sub-agents) of an agent. -/
def Agent.team : Agent → List Agent
  | .mk _ _ _ _ t _ _ _ => t

/-- The instruction list of an agent. -/
def Agent.instructions : Agent → List String
  | .mk _ _ _ _ _ i _ _ => i

/-- The show-intermediate-calls output-mode flag. -/
def Agent.show_tool_calls : Agent → Bool
  | .mk _ _ _ _ _ _ s _ => s

/-- The render-as-Markdown output-mode flag. -/
def Agent.markdown : Agent → Bool
  | .mk _ _ _ _ _ _ _ m => m

/-- The keyword arguments of one `Agent(...)` construction in the script;
fields not passed by the script keep the library defaults (no role, no
tools, no team, no instructions, flags off). -/
structure AgentConfig where
  name : String
  role : Option String := none
  model : ModelBackend
  tools : List Tool := []
  team : List Agent := []
  instructions : List String := []
  show_tool_calls : Bool := false
  markdown : Bool := false

/-- Constructing an agent is pure parameter passing from the
configuration into the agent record. -/
def Agent.construct (c : AgentConfig) : Agent :=
  .mk c.name c.role c.model c.tools c.team c.instructions c.show_tool_calls
    c.markdown

/-- The keyword arguments of the `web_search = Agent(...)` construction. -/
def webSearchConfig : AgentConfig where
  name := "Web Search Agent"
  role :=
    some "search the web for relevant information to answer user queries accurately."
  model := .Groq "llama-3.3-70b-versatile"
  tools := [.DuckDuckGo]
  instructions := ["Always include sources in your answers."]
  show_tool_calls := true
  markdown := true

/-- The web-search specialist agent the script constructs. -/
def web_search : Agent := Agent.construct webSearchConfig

/-- The keyword arguments of the `financial_agent = Agent(...)`
construction; all four YFinance sub-capabilities are passed as True. -/
def financialAgentConfig : AgentConfig where
  name := "Financial Agent"
  role :=
    some "assist users with financial data analysis and stock market information."
  model := .Groq "llama-3.3-70b-versatile"
  tools := [.YFinance ⟨true, true, true, true⟩]
  instructions := ["use tables to display the data"]
  show_tool_calls := true
  markdown := true

/-- The financial specialist agent the script constructs. -/
def financial_agent : Agent := Agent.construct financialAgentConfig

/-- The keyword arguments of the `multi_ai_agent = Agent(...)`
construction: a team of the two specialists and no tools of its own. -/
def multiAiAgentConfig : AgentConfig where
  name := "Multi AI Agent"
  model := .Groq "llama-3.3-70b-versatile"
  team := [web_search, financial_agent]
  instructions :=
    ["use tables to display the data", "Always include sources in your answers."]
  show_tool_calls := true
  markdown := true

/-- The coordinator agent the script constructs. -/
def multi_ai_agent : Agent := Agent.construct multiAiAgentConfig

/-- The two specialist agents, in the order the script constructs them. -/
def specialists : List Agent := [web_search, financial_agent]

/-- The literal query string the script submits once. -/
def appleQuery : String :=
  "Provide a summary of Apple\x27s stock performance over the past year, including recent news that may impact its future performance."

/-- How Python prints a boolean. -/
def pyBool : Bool → String
  | true => "True"
  | false => "False"

/-- How Python prints the result of `os.getenv`: the string or None. -/
def pyOptStr : Option String → String
  | none => "None"
  | some s => s

/-- The two startup sanity-check lines the script prints, one per
environment variable read. -/
def startupLines (env : Env) : List String :=
  ["✅ GROQ_API_KEY loaded: " ++ pyBool (env "GROQ_API_KEY").isSome,
   "✅ PHI_DEFAULT_MODEL: " ++ pyOptStr (env "PHI_DEFAULT_MODEL")]

/-- The observable trace of one run of the script: the environment
variables read (in order), the lines written to standard output, the
agents constructed, and the coordinator invocations (agent name paired
with the submitted query string). -/
structure ProgramTrace where
  envReads : List String
  stdout : List String
  agents : List Agent
  calls : List (String × String)

/-- The trace of the script when the single coordinator call answers with
`out`: two environment reads, the two startup prints followed by the
response, three constructed agents, and exactly one coordinator call. -/
def scriptTrace (env : Env) (out : String) : ProgramTrace where
  envReads := ["GROQ_API_KEY", "PHI_DEFAULT_MODEL"]
  stdout := startupLines env ++ [out]
  agents := [web_search, financial_agent, multi_ai_agent]
  calls := [(multi_ai_agent.name, appleQuery)]

/-- The failure modes a collaborator call may raise, per the spec. -/
inductive PyError : Type where
  | missingCredentials : PyError
  | networkFailure : PyError
  | emptyResults : PyError
  | backendError : String → PyError
deriving DecidableEq

/-- The script with the fallible collaborator made explicit: `respond` is
the behaviour of `multi_ai_agent.print_response` on a query. The script
wraps the call in no exception handler, so a raised error propagates
unchanged and the run produces no trace. -/
def runExc (env : Env) (respond : String → Except PyError String) :
    Except PyError ProgramTrace :=
  match respond appleQuery with
  | .error e => .error e
  | .ok out => .ok (scriptTrace env out)

/-- Modelled from the spec: the state alive during one query lifetime is
the constructed agents plus the conversation/tool-call log; the query
execution itself lives in the excluded phi library collaborator. -/
structure SessionState where
  agents : List Agent
  log : List String

/-- The session state right after the three constructions. -/
def initialSession : SessionState where
  agents := [web_search, financial_agent, multi_ai_agent]
  log := []

/-- Modelled from the spec: submitting and answering a query asks the
collaborator for an answer and its log entries, appends the entries to
the log, and returns the answer; the agents field is passed through. -/
def submitQuery (respond : String → String × List String) (q : String)
    (s : SessionState) : SessionState × String :=
  ((⟨s.agents, s.log ++ (respond q).2⟩ : SessionState), (respond q).1)

/-- C1: the coordinator agent's team list is exactly the two configured
specialist agents, in configured order — the web-search agent first, the
financial agent second — and nothing else. -/
theorem coordinator_team_exact :
    multi_ai_agent.team = [web_search, financial_agent] ∧
    multi_ai_agent.team.length = 2 := ⟨rfl, rfl⟩

/-- C2: every specialist agent the script constructs has a non-empty
tool-binding list, and the coordinator's team list is non-empty. -/
theorem specialist_tools_nonempty :
    web_search.tools ≠ [] ∧ financial_agent.tools ≠ [] ∧
    specialists.all (fun a => !a.tools.isEmpty) = true ∧
    multi_ai_agent.team ≠ [] :=
  ⟨List.cons_ne_nil _ _, List.cons_ne_nil _ _, rfl, List.cons_ne_nil _ _⟩

/-- C3 counterexample: in an environment that sets PHI_DEFAULT_MODEL to
"mixtral-8x7b", every constructed agent is still bound to the backend
identifier "llama-3.3-70b-versatile", which differs from the selected
value — so the PHI_DEFAULT_MODEL variable does not select the backend
identifier used by the constructed agents, contrary to the claim. -/
theorem phi_default_model_does_not_select_backend :
    (fun k => if k = "PHI_DEFAULT_MODEL" then some "mixtral-8x7b" else none :
      Env) "PHI_DEFAULT_MODEL" = some "mixtral-8x7b" ∧
    web_search.model = .Groq "llama-3.3-70b-versatile" ∧
    financial_agent.model = .Groq "llama-3.3-70b-versatile" ∧
    multi_ai_agent.model = .Groq "llama-3.3-70b-versatile" ∧
    ModelBackend.Groq "llama-3.3-70b-versatile" ≠ .Groq "mixtral-8x7b" := by
  refine ⟨by decide, rfl, rfl, rfl, by decide⟩

/-- C3 amended: at startup the script reads exactly two environment
variables, each read once — the credential variable GROQ_API_KEY and the
variable PHI_DEFAULT_MODEL, whose value is printed but does not determine
the backend identifier bound into the constructed agents, which is the
fixed string "llama-3.3-70b-versatile" for all three agents. -/
theorem env_reads_exactly_two :
    ∀ (env : Env) (out : String),
      (scriptTrace env out).envReads = ["GROQ_API_KEY", "PHI_DEFAULT_MODEL"] ∧
      (scriptTrace env out).envReads.Nodup ∧
      (scriptTrace env out).stdout.get? 1 =
        some ("✅ PHI_DEFAULT_MODEL: " ++ pyOptStr (env "PHI_DEFAULT_MODEL")) ∧
      (scriptTrace env out).agents.map (fun a => a.model.ident) =
        ["llama-3.3-70b-versatile", "llama-3.3-70b-versatile",
         "llama-3.3-70b-versatile"] := by
  intro env out
  refine ⟨rfl, ?_, rfl, rfl⟩
  show (["GROQ_API_KEY", "PHI_DEFAULT_MODEL"] : List String).Nodup
  decide

/-- C4: the query driver submits the one literal request string to the
coordinator exactly once — the call list of every run trace is the single
pair of the coordinator's name and the Apple query, with no retry or
second submission — and the coordinator renders Markdown, the response
being emitted to standard output after the startup lines. -/
theorem query_driver_single_call :
    ∀ (env : Env) (out : String),
      (scriptTrace env out).calls = [("Multi AI Agent", appleQuery)] ∧
      (scriptTrace env out).calls.length = 1 ∧
      (scriptTrace env out).stdout = startupLines env ++ [out] ∧
      multi_ai_agent.markdown = true :=
  fun _ _ => ⟨rfl, rfl, rfl, rfl⟩

/-- C5: the coordinator is constructed with a team but with an empty tool
list, while carrying the same kinds of attributes as the specialists —
its own name, the same backend reference as both specialists, its
instruction list, and the same output-mode flags as both specialists. -/
theorem coordinator_has_team_no_tools :
    multi_ai_agent.tools = [] ∧
    multi_ai_agent.team = [web_search, financial_agent] ∧
    multi_ai_agent.name = "Multi AI Agent" ∧
    multi_ai_agent.model = web_search.model ∧
    multi_ai_agent.model = financial_agent.model ∧
    multi_ai_agent.instructions =
      ["use tables to display the data",
       "Always include sources in your answers."] ∧
    multi_ai_agent.show_tool_calls = web_search.show_tool_calls ∧
    multi_ai_agent.show_tool_calls = financial_agent.show_tool_calls ∧
    multi_ai_agent.markdown = web_search.markdown ∧
    multi_ai_agent.markdown = financial_agent.markdown :=
  ⟨rfl, rfl, rfl, rfl, rfl, rfl, rfl, rfl, rfl, rfl⟩

/-- C6: the financial agent's tool list is the single YFinance binding
with all four sub-capability flags — company news, stock price history,
analyst recommendations, and stock fundamentals — enabled. -/
theorem financial_tool_all_subcapabilities_enabled :
    financial_agent.tools = [Tool.YFinance ⟨true, true, true, true⟩] ∧
    financial_agent.tools.length = 1 := ⟨rfl, rfl⟩

/-- C7: agent construction is a pure function of its configuration —
running the construction twice on equal configurations yields agents with
identical name, role, and instruction attributes. -/
theorem construct_deterministic :
    ∀ (c₁ c₂ : AgentConfig), c₁ = c₂ →
      (Agent.construct c₁).name = (Agent.construct c₂).name ∧
      (Agent.construct c₁).role = (Agent.construct c₂).role ∧
      (Agent.construct c₁).instructions = (Agent.construct c₂).instructions :=
  fun c₁ c₂ h => by subst h; exact ⟨rfl, rfl, rfl⟩

/-- C7 witness: constructing the web-search configuration twice yields
equal name, role, and instruction attributes. -/
theorem construct_deterministic_witness :
    (Agent.construct webSearchConfig).name =
      (Agent.construct webSearchConfig).name ∧
    (Agent.construct webSearchConfig).role =
      (Agent.construct webSearchConfig).role ∧
    (Agent.construct webSearchConfig).instructions =
      (Agent.construct webSearchConfig).instructions :=
  construct_deterministic webSearchConfig webSearchConfig rfl

/-- C8: the script defines no error handling — whenever the collaborator
call raises any failure, the run result is exactly that error, neither
caught nor classified, and no trace (no further work) is produced. -/
theorem errors_propagate_uncaught :
    ∀ (env : Env) (respond : String → Except PyError String) (e : PyError),
      respond appleQuery = .error e → runExc env respond = .error e :=
  fun env respond e h => by unfold runExc; rw [h]

/-- C8 witness: with a collaborator that raises a network failure, the
run terminates with exactly that error. -/
theorem errors_propagate_uncaught_witness :
    runExc (fun _ => none) (fun _ => .error PyError.networkFailure) =
      .error PyError.networkFailure :=
  errors_propagate_uncaught (fun _ => none)
    (fun _ => .error PyError.networkFailure) PyError.networkFailure rfl

/-- C9: submitting and answering a query leaves the constructed agents —
hence every configuration field of every agent — unchanged; the only
state change is appending the collaborator's entries to the log, and in
particular the initial session still holds exactly the three constructed
agents afterwards. -/
theorem query_frame_condition :
    ∀ (respond : String → String × List String) (q : String)
      (s : SessionState),
      (submitQuery respond q s).1.agents = s.agents ∧
      (submitQuery respond q s).1.agents.map Agent.name =
        s.agents.map Agent.name ∧
      (submitQuery respond q s).1.log = s.log ++ (respond q).2 ∧
      (submitQuery respond q s).2 = (respond q).1 ∧
      (submitQuery respond appleQuery initialSession).1.agents =
        [web_search, financial_agent, multi_ai_agent] :=
  fun _ _ _ => ⟨rfl, rfl, rfl, rfl, rfl⟩

/-- C10: the backend identifier bound into every constructed agent is the
fixed string "llama-3.3-70b-versatile"; for any two runs whose
environments agree except at PHI_DEFAULT_MODEL, the agents and their
backend references are identical, while the variable's value is printed
on the second startup line of each run. -/
theorem backend_independent_of_phi_default_model :
    ∀ (env₁ env₂ : Env) (out : String),
      (∀ k, k ≠ "PHI_DEFAULT_MODEL" → env₁ k = env₂ k) →
      (scriptTrace env₁ out).agents = (scriptTrace env₂ out).agents ∧
      (scriptTrace env₁ out).agents.map Agent.model =
        [.Groq "llama-3.3-70b-versatile", .Groq "llama-3.3-70b-versatile",
         .Groq "llama-3.3-70b-versatile"] ∧
      (scriptTrace env₁ out).stdout.get? 1 =
        some ("✅ PHI_DEFAULT_MODEL: " ++ pyOptStr (env₁ "PHI_DEFAULT_MODEL")) ∧
      (scriptTrace env₂ out).stdout.get? 1 =
        some ("✅ PHI_DEFAULT_MODEL: " ++ pyOptStr (env₂ "PHI_DEFAULT_MODEL")) :=
  fun _ _ _ _ => ⟨rfl, rfl, rfl, rfl⟩

/-- C10 witness: two environments that differ only at PHI_DEFAULT_MODEL
give runs with identical constructed agents. -/
theorem backend_independent_witness :
    (scriptTrace (fun _ => none) "ok").agents =
      (scriptTrace
        (fun k => if k = "PHI_DEFAULT_MODEL" then some "other-model" else none)
        "ok").agents :=
  (backend_independent_of_phi_default_model (fun _ => none)
    (fun k => if k = "PHI_DEFAULT_MODEL" then some "other-model" else none)
    "ok" (fun _ hk => (if_neg hk).symm)).1

end FinanceAgent
